import Mathlib

/-!
Shallow embedding of `setup_pipeline.py`: a script that provisions Azure ML
resources (compute cluster, role assignment, build environments) and declares
a four-step training→conversion→compile/package pipeline DAG, optionally
submitting it.

The script is a straight-line sequence of platform SDK calls with two
branches (cluster existence, duplicate role assignment).  We model it as a
trace-producing interpreter: a `World` packages the outcomes every external
call would return (environment variables, the local filesystem, and the
result of each remote platform operation), and `main` threads through the
script line by line, accumulating the list of remote-call events and printed
lines, and stopping at the first uncaught exception.  Client construction
(`MLClient`, `AuthorizationManagementClient`, `DefaultAzureCredential`) is
lazy in the SDK — it reads environment variables but performs no remote
call — so it emits no event.  `os.environ` is immutable during a run, so the
repeated reads of `subscription_id` / `resource_group_name` at lines 80–84
of the source return the values read at client construction and are not
re-modelled as separate fallible reads.
-/

/-- Kind of a filesystem entry; `os.path.exists` is true for both. -/
inductive FileKind
  | file
  | dir
deriving DecidableEq, Repr

/-- The system-assigned managed identity of a compute resource. -/
structure ComputeIdentity where
  principal_id : String
deriving DecidableEq, Repr

/-- A compute resource as returned by `ml_client.compute.get`; `identity` is
`none` when the cluster carries no managed identity (Python attribute value
`None`). -/
structure ComputeResource where
  name : String
  identity : Option ComputeIdentity
deriving DecidableEq, Repr

/-- A datastore as returned by `ml_client.datastores.get`. -/
structure Datastore where
  account_name : String
deriving DecidableEq, Repr

/-- The `AmlCompute` specification built at lines 58–66 of the source. -/
structure AmlCompute where
  name : String
  type : String
  size : String
  min_instances : Nat
  max_instances : Nat
  idle_time_before_scale_down : Nat
  identity_type : String
deriving DecidableEq, Repr

/-- The Python exceptions the script can raise or observe. -/
inductive PyError
  | keyError (key : String)
  | fileNotFoundError (msg : String)
  | attributeError (msg : String)
  | resourceExistsError
  | otherError (msg : String)
deriving DecidableEq, Repr

/-- One remote platform call made by the script, with its arguments. -/
inductive Event
  | computeList
  | computeCreateOrUpdate (cluster : AmlCompute)
  | computeGet (name : String)
  | datastoreGet (name : String)
  | roleAssignmentCreate (scope : String) (role_assignment_name : String)
      (role_definition_id : String) (principal_id : String)
  | environmentCreateOrUpdate (name : String) (build_path : String)
  | jobCreateOrUpdate
deriving DecidableEq, Repr

/-- True exactly for compute-cluster create-or-update events. -/
def Event.isComputeCreate : Event → Bool
  | .computeCreateOrUpdate _ => true
  | _ => false

/-- True exactly for environment registration events. -/
def Event.isEnvCreate : Event → Bool
  | .environmentCreateOrUpdate _ _ => true
  | _ => false

/-- True exactly for the job submission event. -/
def Event.isJobSubmit : Event → Bool
  | .jobCreateOrUpdate => true
  | _ => false

/-- True exactly for role-assignment creation events. -/
def Event.isRoleCreate : Event → Bool
  | .roleAssignmentCreate _ _ _ _ => true
  | _ => false

/-- The ambient state the script runs against: the process environment, the
local filesystem, the generated UUID, and the outcome of each remote
platform operation the script may invoke. -/
structure World where
  env : String → Option String
  fs : String → Option FileKind
  uuid4 : String
  computeList : Except PyError (List String)
  computeCreate : Except PyError Unit
  computeGet : String → Except PyError ComputeResource
  datastoreGet : String → Except PyError Datastore
  roleAssignmentCreate : Except PyError String
  envRegister : String → Except PyError String
  jobSubmit : Except PyError String

/-- `os.path.exists`: true when the path exists, whatever its kind. -/
def path_exists (w : World) (p : String) : Bool :=
  (w.fs p).isSome

/-- A prefix of the script's execution: the remote calls made so far, the
lines printed so far, and either the value produced or the first uncaught
exception. -/
structure Step (α : Type) where
  events : List Event
  prints : List String
  result : Except PyError α
deriving Repr

/-- Sequencing of script fragments: an exception aborts the rest; otherwise
traces and output accumulate in order. -/
def Step.andThen {α β : Type} (s : Step α) (f : α → Step β) : Step β :=
  match s.result with
  | .error e => ⟨s.events, s.prints, .error e⟩
  | .ok a => ⟨s.events ++ (f a).events, s.prints ++ (f a).prints, (f a).result⟩

/-- A fragment that does nothing and yields a value. -/
def Step.pure {α : Type} (a : α) : Step α := ⟨[], [], .ok a⟩

/-- A fragment that raises an exception. -/
def Step.fail {α : Type} (e : PyError) : Step α := ⟨[], [], .error e⟩

/-- A `print(...)` statement. -/
def Step.print (msg : String) : Step Unit := ⟨[], [msg], .ok ()⟩

/-- One remote platform call: records its event and returns the outcome the
world assigns to it. -/
def Step.call {α : Type} (ev : Event) (r : Except PyError α) : Step α :=
  ⟨[ev], [], r⟩

/-- Print every line of a list in order (the `for directory in
missing_directories` loop). -/
def printAll : List String → Step Unit
  | [] => Step.pure ()
  | m :: ms => (Step.print m).andThen fun _ => printAll ms

/-- `os.environ[key]`: raises `KeyError` when the variable is unset; no
default is ever substituted. -/
def getenv (w : World) (key : String) : Step String :=
  match w.env key with
  | none => Step.fail (.keyError key)
  | some v => Step.pure v

/-- The seven required relative paths (source lines 35–43). -/
def directories : List String :=
  ["environments/pytorch",
   "environments/onnx2c",
   "environments/gcc",
   "src/pytorch_train",
   "src/onnx2c",
   "src/compile_test",
   "src/minimal_binary"]

/-- The `AmlCompute` literal of source lines 58–66. -/
def compute_cluster : AmlCompute :=
  { name := "cpu-cluster"
    type := "amlcompute"
    size := "Standard_DS3_v2"
    min_instances := 0
    max_instances := 4
    idle_time_before_scale_down := 120
    identity_type := "SystemAssigned" }

/-- The three environment configurations of source lines 119–123:
name, build-context path, description. -/
def env_configs : List (String × String × String) :=
  [("pytorch-onnx-env", "environments/pytorch",
    "Environment for PyTorch training and ONNX export"),
   ("onnx2c-env", "environments/onnx2c",
    "Environment for ONNX to C conversion"),
   ("gcc-env", "environments/gcc",
    "Environment for C compilation and testing")]

/-- The registration loop of source lines 128–139: registers each
environment in order, prints its version, and builds the `latest_envs`
association of name to the string `name:version`. -/
def registerEnvironments (w : World) :
    List (String × String × String) → Step (List (String × String))
  | [] => Step.pure []
  | (env_name, env_dir, _env_description) :: rest =>
    (Step.call (.environmentCreateOrUpdate env_name env_dir)
        (w.envRegister env_name)).andThen fun version =>
    (Step.print ("Environment " ++ env_name ++
        " created/updated with version " ++ version)).andThen fun _ =>
    (registerEnvironments w rest).andThen fun envs =>
    Step.pure ((env_name, env_name ++ ":" ++ version) :: envs)

/-- `latest_envs[env_name]`: dictionary indexing, `KeyError` when absent. -/
def dictGet (d : List (String × String)) (key : String) : Step String :=
  match d.lookup key with
  | none => Step.fail (.keyError key)
  | some v => Step.pure v

/-- `compute.identity.principal_id` (source line 72): unguarded attribute
access; when `identity` is `None` the access raises `AttributeError`. -/
def identity_principal_id (comp : ComputeResource) : Step String :=
  match comp.identity with
  | none => Step.fail (.attributeError
      "NoneType object has no attribute principal_id")
  | some ident => Step.pure ident.principal_id

/-- A pipeline component declared with `command(...)`: inputs and outputs
are lists of (name, description) pairs, all typed `uri_folder` in the
source. -/
structure CommandComponent where
  name : String
  display_name : String
  description : String
  environment : String
  compute : String
  code : String
  inputs : List (String × String)
  outputs : List (String × String)
  command : String
deriving DecidableEq, Repr

/-- Source lines 145–156: the PyTorch training component.  The component is
built after environment registration, so its environment reference is a
parameter here (`latest_envs["pytorch-onnx-env"]` in the source). -/
def train_pytorch_model (environment : String) : CommandComponent :=
  { name := "pytorch_train"
    display_name := "Train PyTorch Model and Export to ONNX"
    description := "Trains a PyTorch model and exports it to ONNX format"
    environment := environment
    compute := "cpu-cluster"
    code := "./src/pytorch_train"
    inputs := []
    outputs := [("output_dir", "Output directory for model and test data")]
    command := "python run.py --output_dir $\x7b\x7boutputs.output_dir\x7d\x7d" }

/-- Source lines 159–173: the ONNX-to-C conversion component. -/
def convert_onnx_to_c (environment : String) : CommandComponent :=
  { name := "onnx2c"
    display_name := "Convert ONNX to C"
    description := "Converts ONNX model to C code using onnx2c"
    environment := environment
    compute := "cpu-cluster"
    code := "./src/onnx2c"
    inputs := [("model_dir", "Directory containing ONNX model and test data")]
    outputs := [("output_dir", "Output directory for core C model code")]
    command := "python run.py --model_dir $\x7b\x7binputs.model_dir\x7d\x7d --output_dir $\x7b\x7boutputs.output_dir\x7d\x7d" }

/-- Source lines 176–191: the C compilation and test component. -/
def compile_and_test (environment : String) : CommandComponent :=
  { name := "compile_and_test"
    display_name := "Compile C Code and Run Tests"
    description := "Compiles C code and runs tests"
    environment := environment
    compute := "cpu-cluster"
    code := "./src/compile_test"
    inputs := [("c_code_dir", "Directory containing core C model code"),
               ("model_dir", "Directory containing test data from model training")]
    outputs := [("output_dir", "Output directory for test results")]
    command := "python run.py --c_code_dir $\x7b\x7binputs.c_code_dir\x7d\x7d --model_dir $\x7b\x7binputs.model_dir\x7d\x7d --output_dir $\x7b\x7boutputs.output_dir\x7d\x7d" }

/-- Source lines 194–208: the minimal-binary component. -/
def build_minimal_binary (environment : String) : CommandComponent :=
  { name := "build_minimal"
    display_name := "Build Minimal Binary"
    description := "Creates minimal binary for deployment"
    environment := environment
    compute := "cpu-cluster"
    code := "./src/minimal_binary"
    inputs := [("c_code_dir", "Directory containing core C model code")]
    outputs := [("output_dir", "Output directory for minimal binary")]
    command := "python run.py --c_code_dir $\x7b\x7binputs.c_code_dir\x7d\x7d --output_dir $\x7b\x7boutputs.output_dir\x7d\x7d" }

/-- One step of the declared pipeline: the component invoked and its input
bindings, each binding an input name to an upstream step's output
(`(input, source step name, source output name)`). -/
structure PipelineStep where
  component : CommandComponent
  bindings : List (String × String × String)
deriving DecidableEq, Repr

/-- Source lines 216–238, the `@dsl.pipeline` body `nn_pipeline`: invokes
the four components and wires inputs to upstream outputs.  Environments are
parameters, filled from `latest_envs` as in the source. -/
def nn_pipeline (envTrain envOnnx2c envGcc : String) : List PipelineStep :=
  let train_step : PipelineStep :=
    ⟨train_pytorch_model envTrain, []⟩
  let onnx2c_step : PipelineStep :=
    ⟨convert_onnx_to_c envOnnx2c,
     [("model_dir", train_step.component.name, "output_dir")]⟩
  let compile_step : PipelineStep :=
    ⟨compile_and_test envGcc,
     [("c_code_dir", onnx2c_step.component.name, "output_dir"),
      ("model_dir", train_step.component.name, "output_dir")]⟩
  let binary_step : PipelineStep :=
    ⟨build_minimal_binary envGcc,
     [("c_code_dir", onnx2c_step.component.name, "output_dir")]⟩
  [train_step, onnx2c_step, compile_step, binary_step]

/-- A data edge of the declared DAG: one step's output feeding another
step's input. -/
structure Edge where
  src_step : String
  src_output : String
  dst_step : String
  dst_input : String
deriving DecidableEq, Repr

/-- All data edges of a declared pipeline, read off the input bindings. -/
def pipelineEdges (steps : List PipelineStep) : List Edge :=
  steps.flatMap fun s =>
    s.bindings.map fun b => ⟨b.2.1, b.2.2, s.component.name, b.1⟩

/-- Source lines 27–32, the `MLClient(...)` construction: reads the three
required environment variables in argument order; the SDK client itself is
lazy and makes no remote call here.  Yields the subscription id and
resource group name, which the script uses again later. -/
def envPhase (w : World) : Step (String × String) :=
  (getenv w "subscription_id").andThen fun subscription_id =>
  (getenv w "resource_group_name").andThen fun resource_group_name =>
  (getenv w "workspace_name").andThen fun _workspace_name =>
  Step.pure (subscription_id, resource_group_name)

/-- Source lines 35–52: the required-directory check. -/
def dirPhase (w : World) : Step Unit :=
  let missing_directories :=
    directories.filter fun directory => !path_exists w directory
  if missing_directories ≠ [] then
    (Step.print "The following required directories are missing:").andThen fun _ =>
    (printAll (missing_directories.map fun directory => " - " ++ directory)).andThen fun _ =>
    Step.fail (.fileNotFoundError
      "One or more required directories are missing. Please create them and try again.")
  else
    Step.print "All required directories are present."

/-- Source lines 55–73: compute-cluster creation (only when no compute
named `cpu-cluster` is listed), then the unguarded read of the cluster's
managed-identity principal id. -/
def computePhase (w : World) : Step String :=
  (Step.print "Creating compute cluster...").andThen fun _ =>
  (Step.call .computeList w.computeList).andThen fun names =>
  (if "cpu-cluster" ∉ names then
    (Step.call (.computeCreateOrUpdate compute_cluster) w.computeCreate).andThen fun _ =>
    Step.print "Compute cluster created."
   else
    Step.print "Compute cluster already exists.").andThen fun _ =>
  (Step.call (.computeGet "cpu-cluster") (w.computeGet "cpu-cluster")).andThen fun comp =>
  (identity_principal_id comp).andThen fun principal_id =>
  (Step.print ("Compute cluster identity principal ID: " ++ principal_id)).andThen fun _ =>
  Step.pure principal_id

/-- Source lines 74–104: datastore lookup, then role-assignment creation
guarded by `try/except ResourceExistsError` — the only exception handler in
the script; any other error from the call propagates. -/
def rolePhase (w : World)
    (subscription_id resource_group_name principal_id : String) : Step Unit :=
  (Step.call (.datastoreGet "workspaceblobstore")
      (w.datastoreGet "workspaceblobstore")).andThen fun ds =>
  let storage_account_name := ds.account_name
  let scope := "/subscriptions/" ++ subscription_id ++ "/resourceGroups/" ++
    resource_group_name ++ "/providers/Microsoft.Storage/storageAccounts/" ++
    storage_account_name
  let role_definition_id := "/subscriptions/" ++ subscription_id ++
    "/providers/Microsoft.Authorization/roleDefinitions/ba92f5b4-2d11-453d-a403-e96b0029c9fe"
  let role_assignment_id := w.uuid4
  match w.roleAssignmentCreate with
  | .ok role_assignment_id_str =>
    (Step.call (.roleAssignmentCreate scope role_assignment_id
        role_definition_id principal_id) (Except.ok ())).andThen fun _ =>
    Step.print ("Role assignment created: " ++ role_assignment_id_str)
  | .error PyError.resourceExistsError =>
    (Step.call (.roleAssignmentCreate scope role_assignment_id
        role_definition_id principal_id) (Except.ok ())).andThen fun _ =>
    Step.print "Role assignment already exists. Skipping creation."
  | .error e =>
    Step.call (.roleAssignmentCreate scope role_assignment_id
        role_definition_id principal_id) (Except.error e : Except PyError Unit)

/-- Source lines 117–139: registration of the three environments. -/
def environmentsPhase (w : World) : Step (List (String × String)) :=
  (Step.print "Creating environments...").andThen fun _ =>
  registerEnvironments w env_configs

/-- Source lines 141–241: component declaration (each looking up its
environment reference in `latest_envs`) and the pipeline declaration. -/
def componentsPhase (latest_envs : List (String × String)) : Step (List PipelineStep) :=
  (Step.print "Creating pipeline components...").andThen fun _ =>
  (dictGet latest_envs "pytorch-onnx-env").andThen fun envTrain =>
  (dictGet latest_envs "onnx2c-env").andThen fun envOnnx2c =>
  (dictGet latest_envs "gcc-env").andThen fun envGcc =>
  Step.pure (nn_pipeline envTrain envOnnx2c envGcc)

/-- Source lines 27–241: everything `main` does before the `--run` branch.
Yields the declared pipeline. -/
def setup (w : World) : Step (List PipelineStep) :=
  (envPhase w).andThen fun ids =>
  (dirPhase w).andThen fun _ =>
  (computePhase w).andThen fun principal_id =>
  (rolePhase w ids.1 ids.2 principal_id).andThen fun _ =>
  (environmentsPhase w).andThen fun latest_envs =>
  componentsPhase latest_envs

/-- The whole script (source lines 20–249), the Python function `main`:
`setup` followed by submission when the `--run` flag was given, or the
completion message otherwise.  (Named `py_main` because Lean reserves
`main` for a program entry point.) -/
def submitPhase (w : World) (run : Bool) (pipeline : List PipelineStep) :
    Step (List PipelineStep) :=
  if run then
    (Step.call .jobCreateOrUpdate w.jobSubmit).andThen fun job_name =>
    (Step.print ("Pipeline job submitted with ID: " ++ job_name)).andThen fun _ =>
    Step.pure pipeline
  else
    (Step.print "\nSetup complete! Pipeline is ready to be submitted.").andThen fun _ =>
    (Step.print "Run the pipeline with the --run flag to execute it.").andThen fun _ =>
    Step.pure pipeline

def py_main (w : World) (run : Bool) : Step (List PipelineStep) :=
  (setup w).andThen (submitPhase w run)

/-- Abbreviation for the storage-account scope string built at line 83. -/
def scopeOf (subscription_id resource_group_name storage_account_name : String) : String :=
  "/subscriptions/" ++ subscription_id ++ "/resourceGroups/" ++ resource_group_name ++
    "/providers/Microsoft.Storage/storageAccounts/" ++ storage_account_name

/-- Abbreviation for the role-definition id string built at line 84. -/
def roleDefOf (subscription_id : String) : String :=
  "/subscriptions/" ++ subscription_id ++
    "/providers/Microsoft.Authorization/roleDefinitions/ba92f5b4-2d11-453d-a403-e96b0029c9fe"

/-- A fully healthy ambient state: environment variables set, all seven
required directories present, the compute cluster already listed with a
system-assigned identity, and every remote call succeeding. -/
def wOK : World :=
  { env := fun key =>
      if key = "subscription_id" then some "sub-1"
      else if key = "resource_group_name" then some "rg-1"
      else if key = "workspace_name" then some "ws-1"
      else none
    fs := fun p => if p ∈ directories then some .dir else none
    uuid4 := "uuid-1"
    computeList := .ok ["cpu-cluster"]
    computeCreate := .ok ()
    computeGet := fun n =>
      if n = "cpu-cluster" then .ok ⟨"cpu-cluster", some ⟨"principal-1"⟩⟩
      else .error (.otherError "ResourceNotFoundError")
    datastoreGet := fun n =>
      if n = "workspaceblobstore" then .ok ⟨"storacct"⟩
      else .error (.otherError "ResourceNotFoundError")
    roleAssignmentCreate := .ok "ra-1"
    envRegister := fun _ => .ok "1"
    jobSubmit := .ok "job-1" }

/-- `wOK` with an empty local filesystem: every required path is absent. -/
def wMissing : World := { wOK with fs := fun _ => none }

/-- `wOK` but each required path exists as a regular file, not a directory. -/
def wFiles : World :=
  { wOK with fs := fun p => if p ∈ directories then some .file else none }

/-- `wOK` but role-assignment creation raises `ResourceExistsError`. -/
def wREE : World := { wOK with roleAssignmentCreate := .error .resourceExistsError }

/-- `wOK` but listing computes fails (for example, failed authentication). -/
def wCLErr : World :=
  { wOK with computeList := .error (.otherError "AuthenticationError") }

/-- `wOK` but the existing cluster carries no managed identity. -/
def wNoId : World :=
  { wOK with computeGet := fun n =>
      if n = "cpu-cluster" then .ok ⟨"cpu-cluster", none⟩
      else .error (.otherError "ResourceNotFoundError") }

/-- `wOK` with no environment variables set at all. -/
def wNoEnv : World := { wOK with env := fun _ => none }

/-! ### Basic facts about `Step` sequencing -/

/-- Sequencing after a fragment known to fail keeps its trace and error. -/
theorem Step.andThen_of_error {α β : Type} {s : Step α} {e : PyError}
    (f : α → Step β) (h : s.result = .error e) :
    s.andThen f = ⟨s.events, s.prints, .error e⟩ := by
  unfold Step.andThen
  rw [h]

/-- Sequencing after a fragment known to succeed concatenates traces. -/
theorem Step.andThen_of_ok {α β : Type} {s : Step α} {a : α}
    (f : α → Step β) (h : s.result = .ok a) :
    s.andThen f =
      ⟨s.events ++ (f a).events, s.prints ++ (f a).prints, (f a).result⟩ := by
  unfold Step.andThen
  rw [h]

/-- Whatever happens later, a sequence's event trace extends the first
fragment's. -/
theorem Step.andThen_events_prefix {α β : Type} (s : Step α) (f : α → Step β) :
    ∃ t, (s.andThen f).events = s.events ++ t := by
  unfold Step.andThen
  cases h : s.result with
  | error e => exact ⟨[], by simp⟩
  | ok a => exact ⟨(f a).events, rfl⟩

/-- The `for` loop printing the missing directories prints exactly them, in
order, and makes no remote call. -/
theorem printAll_eq (l : List String) : printAll l = ⟨[], l, .ok ()⟩ := by
  induction l with
  | nil => rfl
  | cons m ms ih => simp [printAll, Step.andThen, Step.print, ih]

theorem Step.mem_andThen_events {α β : Type} {s : Step α} {f : α → Step β} {ev : Event}
    (h : ev ∈ (s.andThen f).events) : ev ∈ s.events ∨ ∃ a, ev ∈ (f a).events := by
  unfold Step.andThen at h
  split at h
  · exact Or.inl h
  · rcases List.mem_append.1 h with h | h
    · exact Or.inl h
    · exact Or.inr ⟨_, h⟩

theorem envPhase_events (w : World) : (envPhase w).events = [] := by
  unfold envPhase getenv Step.andThen Step.pure Step.fail
  repeat' split <;> simp_all

theorem dirPhase_events (w : World) : (dirPhase w).events = [] := by
  simp only [dirPhase]
  split <;> simp [printAll_eq, Step.andThen, Step.print, Step.fail]

theorem computePhase_no_job (w : World) :
    Event.jobCreateOrUpdate ∉ (computePhase w).events := by
  intro h
  simp only [computePhase, Step.andThen, Step.print, Step.call, Step.pure, Step.fail,
    identity_principal_id] at h
  repeat' split at h <;> simp_all

theorem rolePhase_no_job (w : World) (a b c : String) :
    Event.jobCreateOrUpdate ∉ (rolePhase w a b c).events := by
  intro h
  simp only [rolePhase, Step.andThen, Step.print, Step.call] at h
  repeat' split at h <;> simp_all

theorem environmentsPhase_no_job (w : World) :
    Event.jobCreateOrUpdate ∉ (environmentsPhase w).events := by
  intro h
  simp only [environmentsPhase, registerEnvironments, env_configs, Step.andThen, Step.print,
    Step.call, Step.pure] at h
  repeat' split at h <;> simp_all

theorem componentsPhase_no_job (l : List (String × String)) :
    Event.jobCreateOrUpdate ∉ (componentsPhase l).events := by
  intro h
  simp only [componentsPhase, dictGet, Step.andThen, Step.print, Step.pure, Step.fail] at h
  repeat' split at h <;> simp_all

theorem setup_no_job (w : World) :
    Event.jobCreateOrUpdate ∉ (setup w).events := by
  intro h
  unfold setup at h
  rcases Step.mem_andThen_events h with h | ⟨ids, h⟩
  · rw [envPhase_events] at h
    exact absurd h (List.not_mem_nil _)
  rcases Step.mem_andThen_events h with h | ⟨u, h⟩
  · rw [dirPhase_events] at h
    exact absurd h (List.not_mem_nil _)
  rcases Step.mem_andThen_events h with h | ⟨pid, h⟩
  · exact computePhase_no_job w h
  rcases Step.mem_andThen_events h with h | ⟨u2, h⟩
  · exact rolePhase_no_job w ids.1 ids.2 pid h
  rcases Step.mem_andThen_events h with h | ⟨latest, h⟩
  · exact environmentsPhase_no_job w h
  · exact componentsPhase_no_job latest h

theorem envPhase_ok (w : World) (sub rg ws : String)
    (h1 : w.env "subscription_id" = some sub)
    (h2 : w.env "resource_group_name" = some rg)
    (h3 : w.env "workspace_name" = some ws) :
    envPhase w = ⟨[], [], .ok (sub, rg)⟩ := by
  simp [envPhase, getenv, h1, h2, h3, Step.andThen, Step.pure]

theorem envPhase_err_sub (w : World) (h : w.env "subscription_id" = none) :
    envPhase w = ⟨[], [], .error (.keyError "subscription_id")⟩ := by
  simp [envPhase, getenv, h, Step.andThen, Step.fail]

theorem envPhase_err_rg (w : World) (sub : String)
    (h1 : w.env "subscription_id" = some sub)
    (h : w.env "resource_group_name" = none) :
    envPhase w = ⟨[], [], .error (.keyError "resource_group_name")⟩ := by
  simp [envPhase, getenv, h1, h, Step.andThen, Step.pure, Step.fail]

theorem envPhase_err_ws (w : World) (sub rg : String)
    (h1 : w.env "subscription_id" = some sub)
    (h2 : w.env "resource_group_name" = some rg)
    (h : w.env "workspace_name" = none) :
    envPhase w = ⟨[], [], .error (.keyError "workspace_name")⟩ := by
  simp [envPhase, getenv, h1, h2, h, Step.andThen, Step.pure, Step.fail]

theorem dirPhase_missing (w : World)
    (h : directories.filter (fun directory => !path_exists w directory) ≠ []) :
    dirPhase w =
      ⟨[],
       "The following required directories are missing:" ::
         (directories.filter (fun directory => !path_exists w directory)).map
           (fun directory => " - " ++ directory),
       .error (.fileNotFoundError
         "One or more required directories are missing. Please create them and try again.")⟩ := by
  simp only [dirPhase]
  rw [if_pos h]
  simp [printAll_eq, Step.andThen, Step.print, Step.fail]

theorem dirPhase_ok (w : World)
    (h : directories.filter (fun directory => !path_exists w directory) = []) :
    dirPhase w = ⟨[], ["All required directories are present."], .ok ()⟩ := by
  simp only [dirPhase]
  rw [if_neg (by simp [h])]
  rfl

theorem computePhase_existing (w : World) (names : List String)
    (comp : ComputeResource) (ident : ComputeIdentity)
    (hl : w.computeList = .ok names) (hm : "cpu-cluster" ∈ names)
    (hg : w.computeGet "cpu-cluster" = .ok comp) (hi : comp.identity = some ident) :
    computePhase w =
      ⟨[.computeList, .computeGet "cpu-cluster"],
       ["Creating compute cluster...", "Compute cluster already exists.",
        "Compute cluster identity principal ID: " ++ ident.principal_id],
       .ok ident.principal_id⟩ := by
  simp [computePhase, Step.andThen, Step.print, Step.call, Step.pure, hl, hm, hg, hi,
    identity_principal_id]

theorem computePhase_created (w : World) (names : List String)
    (comp : ComputeResource) (ident : ComputeIdentity)
    (hl : w.computeList = .ok names) (hm : "cpu-cluster" ∉ names)
    (hc : w.computeCreate = .ok ())
    (hg : w.computeGet "cpu-cluster" = .ok comp) (hi : comp.identity = some ident) :
    computePhase w =
      ⟨[.computeList, .computeCreateOrUpdate compute_cluster, .computeGet "cpu-cluster"],
       ["Creating compute cluster...", "Compute cluster created.",
        "Compute cluster identity principal ID: " ++ ident.principal_id],
       .ok ident.principal_id⟩ := by
  simp [computePhase, Step.andThen, Step.print, Step.call, Step.pure, hl, hm, hc, hg, hi,
    identity_principal_id]

theorem computePhase_list_err (w : World) (e : PyError)
    (hl : w.computeList = .error e) :
    computePhase w = ⟨[.computeList], ["Creating compute cluster..."], .error e⟩ := by
  simp [computePhase, Step.andThen, Step.print, Step.call, hl]

theorem computePhase_create_err (w : World) (names : List String) (e : PyError)
    (hl : w.computeList = .ok names) (hm : "cpu-cluster" ∉ names)
    (hc : w.computeCreate = .error e) :
    computePhase w =
      ⟨[.computeList, .computeCreateOrUpdate compute_cluster],
       ["Creating compute cluster..."], .error e⟩ := by
  simp [computePhase, Step.andThen, Step.print, Step.call, hl, hm, hc]

theorem computePhase_get_err (w : World) (names : List String) (e : PyError)
    (hl : w.computeList = .ok names) (hm : "cpu-cluster" ∈ names)
    (hg : w.computeGet "cpu-cluster" = .error e) :
    computePhase w =
      ⟨[.computeList, .computeGet "cpu-cluster"],
       ["Creating compute cluster...", "Compute cluster already exists."], .error e⟩ := by
  simp [computePhase, Step.andThen, Step.print, Step.call, hl, hm, hg]

theorem computePhase_identity_none (w : World) (names : List String)
    (comp : ComputeResource)
    (hl : w.computeList = .ok names) (hm : "cpu-cluster" ∈ names)
    (hg : w.computeGet "cpu-cluster" = .ok comp) (hi : comp.identity = none) :
    computePhase w =
      ⟨[.computeList, .computeGet "cpu-cluster"],
       ["Creating compute cluster...", "Compute cluster already exists."],
       .error (.attributeError "NoneType object has no attribute principal_id")⟩ := by
  simp [computePhase, Step.andThen, Step.print, Step.call, Step.pure, Step.fail, hl, hm,
    hg, hi, identity_principal_id]

theorem rolePhase_ds_err (w : World) (s r p : String) (e : PyError)
    (hd : w.datastoreGet "workspaceblobstore" = .error e) :
    rolePhase w s r p = ⟨[.datastoreGet "workspaceblobstore"], [], .error e⟩ := by
  simp [rolePhase, Step.andThen, Step.call, hd]

theorem rolePhase_ok (w : World) (s r p : String) (ds : Datastore) (raid : String)
    (hd : w.datastoreGet "workspaceblobstore" = .ok ds)
    (hr : w.roleAssignmentCreate = .ok raid) :
    rolePhase w s r p =
      ⟨[.datastoreGet "workspaceblobstore",
        .roleAssignmentCreate (scopeOf s r ds.account_name) w.uuid4 (roleDefOf s) p],
       ["Role assignment created: " ++ raid], .ok ()⟩ := by
  simp [rolePhase, Step.andThen, Step.call, Step.print, hd, hr, scopeOf, roleDefOf]

theorem rolePhase_exists (w : World) (s r p : String) (ds : Datastore)
    (hd : w.datastoreGet "workspaceblobstore" = .ok ds)
    (hr : w.roleAssignmentCreate = .error .resourceExistsError) :
    rolePhase w s r p =
      ⟨[.datastoreGet "workspaceblobstore",
        .roleAssignmentCreate (scopeOf s r ds.account_name) w.uuid4 (roleDefOf s) p],
       ["Role assignment already exists. Skipping creation."], .ok ()⟩ := by
  simp [rolePhase, Step.andThen, Step.call, Step.print, hd, hr, scopeOf, roleDefOf]

theorem rolePhase_err (w : World) (s r p : String) (ds : Datastore) (e : PyError)
    (hd : w.datastoreGet "workspaceblobstore" = .ok ds)
    (hr : w.roleAssignmentCreate = .error e) (hne : e ≠ .resourceExistsError) :
    rolePhase w s r p =
      ⟨[.datastoreGet "workspaceblobstore",
        .roleAssignmentCreate (scopeOf s r ds.account_name) w.uuid4 (roleDefOf s) p],
       [], .error e⟩ := by
  cases e with
  | resourceExistsError => exact absurd rfl hne
  | keyError k => simp [rolePhase, Step.andThen, Step.call, hd, hr, scopeOf, roleDefOf]
  | fileNotFoundError m => simp [rolePhase, Step.andThen, Step.call, hd, hr, scopeOf, roleDefOf]
  | attributeError m => simp [rolePhase, Step.andThen, Step.call, hd, hr, scopeOf, roleDefOf]
  | otherError m => simp [rolePhase, Step.andThen, Step.call, hd, hr, scopeOf, roleDefOf]

theorem environmentsPhase_ok (w : World) (v1 v2 v3 : String)
    (he1 : w.envRegister "pytorch-onnx-env" = .ok v1)
    (he2 : w.envRegister "onnx2c-env" = .ok v2)
    (he3 : w.envRegister "gcc-env" = .ok v3) :
    environmentsPhase w =
      ⟨[.environmentCreateOrUpdate "pytorch-onnx-env" "environments/pytorch",
        .environmentCreateOrUpdate "onnx2c-env" "environments/onnx2c",
        .environmentCreateOrUpdate "gcc-env" "environments/gcc"],
       ["Creating environments...",
        "Environment pytorch-onnx-env created/updated with version " ++ v1,
        "Environment onnx2c-env created/updated with version " ++ v2,
        "Environment gcc-env created/updated with version " ++ v3],
       .ok [("pytorch-onnx-env", "pytorch-onnx-env:" ++ v1),
            ("onnx2c-env", "onnx2c-env:" ++ v2),
            ("gcc-env", "gcc-env:" ++ v3)]⟩ := by
  simp [environmentsPhase, registerEnvironments, env_configs, Step.andThen, Step.print,
    Step.call, Step.pure, he1, he2, he3]

theorem environmentsPhase_err1 (w : World) (e : PyError)
    (he1 : w.envRegister "pytorch-onnx-env" = .error e) :
    environmentsPhase w =
      ⟨[.environmentCreateOrUpdate "pytorch-onnx-env" "environments/pytorch"],
       ["Creating environments..."], .error e⟩ := by
  simp [environmentsPhase, registerEnvironments, env_configs, Step.andThen, Step.print,
    Step.call, he1]

theorem componentsPhase_ok (v1 v2 v3 : String) :
    componentsPhase
      [("pytorch-onnx-env", "pytorch-onnx-env:" ++ v1),
       ("onnx2c-env", "onnx2c-env:" ++ v2),
       ("gcc-env", "gcc-env:" ++ v3)] =
      ⟨[], ["Creating pipeline components..."],
       .ok (nn_pipeline ("pytorch-onnx-env:" ++ v1) ("onnx2c-env:" ++ v2)
         ("gcc-env:" ++ v3))⟩ := by
  simp [componentsPhase, dictGet, Step.andThen, Step.print, Step.pure, List.lookup]

theorem Step.andThen_prints_prefix {α β : Type} (s : Step α) (f : α → Step β) :
    ∃ t, (s.andThen f).prints = s.prints ++ t := by
  unfold Step.andThen
  cases h : s.result with
  | error e => exact ⟨[], by simp⟩
  | ok a => exact ⟨(f a).prints, rfl⟩

theorem Step.mk_ok_andThen {α β : Type} (evs : List Event) (ps : List String)
    (a : α) (f : α → Step β) :
    Step.andThen ⟨evs, ps, .ok a⟩ f =
      ⟨evs ++ (f a).events, ps ++ (f a).prints, (f a).result⟩ := rfl

theorem Step.mk_error_andThen {α β : Type} (evs : List Event) (ps : List String)
    (e : PyError) (f : α → Step β) :
    Step.andThen ⟨evs, ps, .error e⟩ f = ⟨evs, ps, .error e⟩ := rfl

theorem computePhase_events_head (w : World) :
    ∃ t, (computePhase w).events = .computeList :: t := by
  simp only [computePhase, Step.andThen, Step.print, Step.call, Step.pure, Step.fail,
    identity_principal_id]
  repeat' split <;> exact ⟨_, rfl⟩

theorem setup_events_head (w : World) (sub rg ws : String)
    (h1 : w.env "subscription_id" = some sub)
    (h2 : w.env "resource_group_name" = some rg)
    (h3 : w.env "workspace_name" = some ws)
    (hdir : directories.filter (fun directory => !path_exists w directory) = []) :
    ∃ t, (setup w).events = .computeList :: t := by
  rw [setup, envPhase_ok w sub rg ws h1 h2 h3, dirPhase_ok w hdir]
  simp only [Step.mk_ok_andThen, List.nil_append]
  obtain ⟨t, ht⟩ := Step.andThen_events_prefix (computePhase w)
    (fun principal_id =>
      (rolePhase w sub rg principal_id).andThen fun _ =>
      (environmentsPhase w).andThen fun latest_envs => componentsPhase latest_envs)
  obtain ⟨t2, ht2⟩ := computePhase_events_head w
  refine ⟨t2 ++ t, ?_⟩
  simp [ht, ht2]

theorem py_main_events_head (w : World) (run : Bool) (sub rg ws : String)
    (h1 : w.env "subscription_id" = some sub)
    (h2 : w.env "resource_group_name" = some rg)
    (h3 : w.env "workspace_name" = some ws)
    (hdir : directories.filter (fun directory => !path_exists w directory) = []) :
    ∃ t, (py_main w run).events = .computeList :: t := by
  rw [py_main]
  obtain ⟨t, ht⟩ := Step.andThen_events_prefix (setup w) (submitPhase w run)
  obtain ⟨t2, ht2⟩ := setup_events_head w sub rg ws h1 h2 h3 hdir
  exact ⟨t2 ++ t, by simp [ht, ht2]⟩

/-- C1: the declared pipeline DAG has exactly these data edges — the training
step's `output_dir` feeds the conversion step's `model_dir` and the
compile/test step's `model_dir`, and the conversion step's `output_dir` feeds
the compile/test step's `c_code_dir` and the minimal-binary step's
`c_code_dir`.  The edge list read off the declared input bindings is exactly
these four (whatever environment references the steps carry), so no other
input/output connection exists among the four steps. -/
theorem C1_dag_edges (envTrain envOnnx2c envGcc : String) :
    pipelineEdges (nn_pipeline envTrain envOnnx2c envGcc) =
      [⟨"pytorch_train", "output_dir", "onnx2c", "model_dir"⟩,
       ⟨"onnx2c", "output_dir", "compile_and_test", "c_code_dir"⟩,
       ⟨"pytorch_train", "output_dir", "compile_and_test", "model_dir"⟩,
       ⟨"onnx2c", "output_dir", "build_minimal", "c_code_dir"⟩] := rfl

/-- C2: with the three environment variables set, whenever at least one of
the seven required relative paths is absent the script prints the header line
followed by exactly the absent paths and aborts with `FileNotFoundError`
having made no remote platform call (the event trace is empty); when all
seven are present it proceeds to provisioning, the first remote call being
the compute listing. -/
theorem C2_missing_directories_abort (w : World) (run : Bool) (sub rg ws : String)
    (h1 : w.env "subscription_id" = some sub)
    (h2 : w.env "resource_group_name" = some rg)
    (h3 : w.env "workspace_name" = some ws) :
    (directories.filter (fun directory => !path_exists w directory) ≠ [] →
      py_main w run =
        ⟨[],
         "The following required directories are missing:" ::
           (directories.filter (fun directory => !path_exists w directory)).map
             (fun directory => " - " ++ directory),
         .error (.fileNotFoundError
           "One or more required directories are missing. Please create them and try again.")⟩) ∧
    (directories.filter (fun directory => !path_exists w directory) = [] →
      (py_main w run).events.head? = some .computeList) := by
  constructor
  · intro h
    rw [py_main, setup, envPhase_ok w sub rg ws h1 h2 h3, dirPhase_missing w h]
    simp [Step.andThen]
  · intro h
    obtain ⟨t, ht⟩ := py_main_events_head w run sub rg ws h1 h2 h3 h
    simp [ht]

/-- C7: if any of the environment variables subscription_id,
resource_group_name or workspace_name is unset, the script aborts with a
`KeyError` for the first missing variable (in the order the client
constructor reads them) — before the directory check (nothing is printed)
and before any remote call (no events) — and no default value is ever
substituted. -/
theorem C7_env_vars_required (w : World) (run : Bool) :
    (w.env "subscription_id" = none →
      py_main w run = ⟨[], [], .error (.keyError "subscription_id")⟩) ∧
    (∀ sub, w.env "subscription_id" = some sub → w.env "resource_group_name" = none →
      py_main w run = ⟨[], [], .error (.keyError "resource_group_name")⟩) ∧
    (∀ sub rg, w.env "subscription_id" = some sub →
      w.env "resource_group_name" = some rg → w.env "workspace_name" = none →
      py_main w run = ⟨[], [], .error (.keyError "workspace_name")⟩) := by
  refine ⟨fun h => ?_, fun sub h1 h => ?_, fun sub rg h1 h2 h => ?_⟩
  · rw [py_main, setup, envPhase_err_sub w h]
    simp [Step.andThen]
  · rw [py_main, setup, envPhase_err_rg w sub h1 h]
    simp [Step.andThen]
  · rw [py_main, setup, envPhase_err_ws w sub rg h1 h2 h]
    simp [Step.andThen]

/-- C9: after the cluster-existence branch the script unconditionally
dereferences `identity.principal_id` on the compute fetched by name: when
the cluster named `cpu-cluster` exists but carries no managed identity, the
unguarded access aborts the run with an `AttributeError` right after the
compute lookup, before any role-assignment call — the full trace is exactly
the compute listing and the compute lookup. -/
theorem C9_identity_deref_unguarded (w : World) (run : Bool) (sub rg ws : String)
    (names : List String) (comp : ComputeResource)
    (h1 : w.env "subscription_id" = some sub)
    (h2 : w.env "resource_group_name" = some rg)
    (h3 : w.env "workspace_name" = some ws)
    (hdir : directories.filter (fun directory => !path_exists w directory) = [])
    (hl : w.computeList = .ok names) (hm : "cpu-cluster" ∈ names)
    (hg : w.computeGet "cpu-cluster" = .ok comp) (hi : comp.identity = none) :
    py_main w run =
      ⟨[.computeList, .computeGet "cpu-cluster"],
       ["All required directories are present.", "Creating compute cluster...",
        "Compute cluster already exists."],
       .error (.attributeError "NoneType object has no attribute principal_id")⟩ := by
  rw [py_main, setup, envPhase_ok w sub rg ws h1 h2 h3, dirPhase_ok w hdir,
    computePhase_identity_none w names comp hl hm hg hi]
  simp [Step.andThen]

/-- C10: the required-layout check tests only path existence, never that the
path is a directory: whenever each of the seven required paths exists with
any file kind — including as a regular file — the check passes and setup
proceeds to provisioning. -/
theorem C10_exists_not_isdir (w : World) (run : Bool) (sub rg ws : String)
    (h1 : w.env "subscription_id" = some sub)
    (h2 : w.env "resource_group_name" = some rg)
    (h3 : w.env "workspace_name" = some ws)
    (hex : ∀ d ∈ directories, (w.fs d).isSome) :
    directories.filter (fun directory => !path_exists w directory) = [] ∧
    (py_main w run).events.head? = some .computeList ∧
    "All required directories are present." ∈ (py_main w run).prints := by
  have hdir : directories.filter (fun directory => !path_exists w directory) = [] := by
    simp only [List.filter_eq_nil_iff]
    intro d hd
    simp [path_exists, hex d hd]
  refine ⟨hdir, ?_, ?_⟩
  · obtain ⟨t, ht⟩ := py_main_events_head w run sub rg ws h1 h2 h3 hdir
    simp [ht]
  · rw [py_main]
    obtain ⟨t, ht⟩ := Step.andThen_prints_prefix (setup w) (submitPhase w run)
    rw [ht, setup, envPhase_ok w sub rg ws h1 h2 h3, dirPhase_ok w hdir]
    simp only [Step.mk_ok_andThen, List.nil_append]
    obtain ⟨t2, ht2⟩ := Step.andThen_prints_prefix (computePhase w)
      (fun principal_id =>
        (rolePhase w sub rg principal_id).andThen fun _ =>
        (environmentsPhase w).andThen fun latest_envs => componentsPhase latest_envs)
    simp [ht2]

theorem submitPhase_no_job_false (w : World) (pipeline : List PipelineStep) :
    Event.jobCreateOrUpdate ∉ (submitPhase w false pipeline).events := by
  intro h
  simp [submitPhase, Step.andThen, Step.print, Step.pure] at h

theorem submitPhase_events_true (w : World) (pipeline : List PipelineStep) :
    (submitPhase w true pipeline).events = [Event.jobCreateOrUpdate] := by
  rcases hj : w.jobSubmit with e | name <;>
    simp [submitPhase, Step.andThen, Step.call, Step.print, Step.pure, hj]

theorem submitPhase_false_eq (w : World) (pipeline : List PipelineStep) :
    submitPhase w false pipeline =
      ⟨[], ["\nSetup complete! Pipeline is ready to be submitted.",
            "Run the pipeline with the --run flag to execute it."], .ok pipeline⟩ := by
  simp [submitPhase, Step.andThen, Step.print, Step.pure]

/-- C3: the pipeline job is submitted if and only if the `--run` flag was
supplied.  Without the flag the job-submission call never occurs, whatever
the ambient state; and whenever setup completes, a run without the flag
performs exactly the setup calls and only appends the completion messages,
while a run with the flag performs the same calls plus the single job
submission. -/
theorem C3_run_flag_submission (w : World) :
    Event.jobCreateOrUpdate ∉ (py_main w false).events ∧
    (∀ pipeline, (setup w).result = .ok pipeline →
      (py_main w false).events = (setup w).events ∧
      (py_main w false).result = .ok pipeline ∧
      (py_main w false).prints = (setup w).prints ++
        ["\nSetup complete! Pipeline is ready to be submitted.",
         "Run the pipeline with the --run flag to execute it."] ∧
      (py_main w true).events = (setup w).events ++ [Event.jobCreateOrUpdate]) := by
  constructor
  · intro h
    rw [py_main] at h
    rcases Step.mem_andThen_events h with h | ⟨pipeline, h⟩
    · exact setup_no_job w h
    · exact submitPhase_no_job_false w pipeline h
  · intro pipeline hok
    have hfalse : py_main w false =
        ⟨(setup w).events ++ (submitPhase w false pipeline).events,
         (setup w).prints ++ (submitPhase w false pipeline).prints,
         (submitPhase w false pipeline).result⟩ := by
      rw [py_main]
      exact Step.andThen_of_ok _ hok
    have htrue : py_main w true =
        ⟨(setup w).events ++ (submitPhase w true pipeline).events,
         (setup w).prints ++ (submitPhase w true pipeline).prints,
         (submitPhase w true pipeline).result⟩ := by
      rw [py_main]
      exact Step.andThen_of_ok _ hok
    refine ⟨?_, ?_, ?_, ?_⟩ <;>
      simp [hfalse, htrue, submitPhase_false_eq, submitPhase_events_true]

theorem computePhase_no_create_of_mem (w : World) (names : List String)
    (hl : w.computeList = .ok names) (hm : "cpu-cluster" ∈ names) (c : AmlCompute) :
    Event.computeCreateOrUpdate c ∉ (computePhase w).events := by
  intro h
  simp only [computePhase, Step.andThen, Step.print, Step.call, Step.pure, Step.fail,
    identity_principal_id, hl] at h
  simp only [hm, not_true_eq_false, if_neg, ite_false, not_false_eq_true] at h
  repeat' split at h <;> simp_all

theorem rolePhase_no_create (w : World) (a b c : String) (cc : AmlCompute) :
    Event.computeCreateOrUpdate cc ∉ (rolePhase w a b c).events := by
  intro h
  simp only [rolePhase, Step.andThen, Step.print, Step.call] at h
  repeat' split at h <;> simp_all

theorem environmentsPhase_no_create (w : World) (cc : AmlCompute) :
    Event.computeCreateOrUpdate cc ∉ (environmentsPhase w).events := by
  intro h
  simp only [environmentsPhase, registerEnvironments, env_configs, Step.andThen, Step.print,
    Step.call, Step.pure] at h
  repeat' split at h <;> simp_all

theorem componentsPhase_no_create (l : List (String × String)) (cc : AmlCompute) :
    Event.computeCreateOrUpdate cc ∉ (componentsPhase l).events := by
  intro h
  simp only [componentsPhase, dictGet, Step.andThen, Step.print, Step.pure, Step.fail] at h
  repeat' split at h <;> simp_all

theorem submitPhase_no_create (w : World) (run : Bool) (pipeline : List PipelineStep)
    (cc : AmlCompute) :
    Event.computeCreateOrUpdate cc ∉ (submitPhase w run pipeline).events := by
  intro h
  simp only [submitPhase, Step.andThen, Step.call, Step.print, Step.pure] at h
  repeat' split at h <;> simp_all

theorem computePhase_create_mem (w : World) (names : List String)
    (hl : w.computeList = .ok names) (hnm : "cpu-cluster" ∉ names) :
    Event.computeCreateOrUpdate compute_cluster ∈ (computePhase w).events := by
  simp only [computePhase, Step.andThen, Step.print, Step.call, Step.pure, Step.fail,
    identity_principal_id, hl]
  simp only [hnm, not_false_eq_true, ite_true, if_pos]
  repeat' split <;> simp

theorem setup_events_decomp (w : World) (sub rg ws : String)
    (h1 : w.env "subscription_id" = some sub)
    (h2 : w.env "resource_group_name" = some rg)
    (h3 : w.env "workspace_name" = some ws)
    (hdir : directories.filter (fun directory => !path_exists w directory) = []) :
    ∃ t, (setup w).events = (computePhase w).events ++ t := by
  rw [setup, envPhase_ok w sub rg ws h1 h2 h3, dirPhase_ok w hdir]
  simp only [Step.mk_ok_andThen, List.nil_append]
  exact Step.andThen_events_prefix (computePhase w) _

theorem py_main_events_decomp (w : World) (run : Bool) :
    ∃ t, (py_main w run).events = (setup w).events ++ t := by
  rw [py_main]
  exact Step.andThen_events_prefix (setup w) _

/-- C4: with environment variables set and all directories present,
compute-cluster creation is invoked exactly when no compute named
`cpu-cluster` appears in the workspace's compute list.  In particular, a
second run of setup against a state in which the cluster already exists
performs no create-or-update call, so running setup twice never creates a
second compute cluster. -/
theorem C4_cluster_create_iff_absent (w : World) (run : Bool) (sub rg ws : String)
    (names : List String)
    (h1 : w.env "subscription_id" = some sub)
    (h2 : w.env "resource_group_name" = some rg)
    (h3 : w.env "workspace_name" = some ws)
    (hdir : directories.filter (fun directory => !path_exists w directory) = [])
    (hl : w.computeList = .ok names) :
    (∃ c, Event.computeCreateOrUpdate c ∈ (py_main w run).events) ↔
      "cpu-cluster" ∉ names := by
  constructor
  · rintro ⟨c, hc⟩
    by_contra hmem
    rw [py_main] at hc
    rcases Step.mem_andThen_events hc with hc | ⟨pipeline, hc⟩
    · rw [setup] at hc
      rcases Step.mem_andThen_events hc with hc | ⟨ids, hc⟩
      · rw [envPhase_events] at hc
        exact absurd hc (List.not_mem_nil _)
      rcases Step.mem_andThen_events hc with hc | ⟨u, hc⟩
      · rw [dirPhase_events] at hc
        exact absurd hc (List.not_mem_nil _)
      rcases Step.mem_andThen_events hc with hc | ⟨pid, hc⟩
      · exact computePhase_no_create_of_mem w names hl hmem c hc
      rcases Step.mem_andThen_events hc with hc | ⟨u2, hc⟩
      · exact rolePhase_no_create w ids.1 ids.2 pid c hc
      rcases Step.mem_andThen_events hc with hc | ⟨latest, hc⟩
      · exact environmentsPhase_no_create w c hc
      · exact componentsPhase_no_create latest c hc
    · exact submitPhase_no_create w run pipeline c hc
  · intro hnm
    refine ⟨compute_cluster, ?_⟩
    obtain ⟨t, ht⟩ := py_main_events_decomp w run
    obtain ⟨t2, ht2⟩ := setup_events_decomp w sub rg ws h1 h2 h3 hdir
    rw [ht, ht2]
    exact List.mem_append_left _ (List.mem_append_left _
      (computePhase_create_mem w names hl hnm))

theorem setup_full_ok (w : World) (sub rg ws : String) (names : List String)
    (comp : ComputeResource) (ident : ComputeIdentity) (ds : Datastore)
    (raid v1 v2 v3 : String)
    (h1 : w.env "subscription_id" = some sub)
    (h2 : w.env "resource_group_name" = some rg)
    (h3 : w.env "workspace_name" = some ws)
    (hdir : directories.filter (fun directory => !path_exists w directory) = [])
    (hl : w.computeList = .ok names) (hm : "cpu-cluster" ∈ names)
    (hg : w.computeGet "cpu-cluster" = .ok comp) (hi : comp.identity = some ident)
    (hd : w.datastoreGet "workspaceblobstore" = .ok ds)
    (hr : w.roleAssignmentCreate = .ok raid)
    (he1 : w.envRegister "pytorch-onnx-env" = .ok v1)
    (he2 : w.envRegister "onnx2c-env" = .ok v2)
    (he3 : w.envRegister "gcc-env" = .ok v3) :
    setup w =
      ⟨[.computeList, .computeGet "cpu-cluster", .datastoreGet "workspaceblobstore",
        .roleAssignmentCreate (scopeOf sub rg ds.account_name) w.uuid4 (roleDefOf sub)
          ident.principal_id,
        .environmentCreateOrUpdate "pytorch-onnx-env" "environments/pytorch",
        .environmentCreateOrUpdate "onnx2c-env" "environments/onnx2c",
        .environmentCreateOrUpdate "gcc-env" "environments/gcc"],
       ["All required directories are present.", "Creating compute cluster...",
        "Compute cluster already exists.",
        "Compute cluster identity principal ID: " ++ ident.principal_id,
        "Role assignment created: " ++ raid,
        "Creating environments...",
        "Environment pytorch-onnx-env created/updated with version " ++ v1,
        "Environment onnx2c-env created/updated with version " ++ v2,
        "Environment gcc-env created/updated with version " ++ v3,
        "Creating pipeline components..."],
       .ok (nn_pipeline ("pytorch-onnx-env:" ++ v1) ("onnx2c-env:" ++ v2)
         ("gcc-env:" ++ v3))⟩ := by
  rw [setup, envPhase_ok w sub rg ws h1 h2 h3, dirPhase_ok w hdir]
  simp only [Step.mk_ok_andThen, List.nil_append]
  rw [computePhase_existing w names comp ident hl hm hg hi]
  simp only [Step.mk_ok_andThen]
  rw [rolePhase_ok w sub rg ident.principal_id ds raid hd hr]
  simp only [Step.mk_ok_andThen]
  rw [environmentsPhase_ok w v1 v2 v3 he1 he2 he3]
  simp only [Step.mk_ok_andThen]
  rw [componentsPhase_ok v1 v2 v3]
  simp

theorem setup_full_ree (w : World) (sub rg ws : String) (names : List String)
    (comp : ComputeResource) (ident : ComputeIdentity) (ds : Datastore)
    (v1 v2 v3 : String)
    (h1 : w.env "subscription_id" = some sub)
    (h2 : w.env "resource_group_name" = some rg)
    (h3 : w.env "workspace_name" = some ws)
    (hdir : directories.filter (fun directory => !path_exists w directory) = [])
    (hl : w.computeList = .ok names) (hm : "cpu-cluster" ∈ names)
    (hg : w.computeGet "cpu-cluster" = .ok comp) (hi : comp.identity = some ident)
    (hd : w.datastoreGet "workspaceblobstore" = .ok ds)
    (hr : w.roleAssignmentCreate = .error .resourceExistsError)
    (he1 : w.envRegister "pytorch-onnx-env" = .ok v1)
    (he2 : w.envRegister "onnx2c-env" = .ok v2)
    (he3 : w.envRegister "gcc-env" = .ok v3) :
    setup w =
      ⟨[.computeList, .computeGet "cpu-cluster", .datastoreGet "workspaceblobstore",
        .roleAssignmentCreate (scopeOf sub rg ds.account_name) w.uuid4 (roleDefOf sub)
          ident.principal_id,
        .environmentCreateOrUpdate "pytorch-onnx-env" "environments/pytorch",
        .environmentCreateOrUpdate "onnx2c-env" "environments/onnx2c",
        .environmentCreateOrUpdate "gcc-env" "environments/gcc"],
       ["All required directories are present.", "Creating compute cluster...",
        "Compute cluster already exists.",
        "Compute cluster identity principal ID: " ++ ident.principal_id,
        "Role assignment already exists. Skipping creation.",
        "Creating environments...",
        "Environment pytorch-onnx-env created/updated with version " ++ v1,
        "Environment onnx2c-env created/updated with version " ++ v2,
        "Environment gcc-env created/updated with version " ++ v3,
        "Creating pipeline components..."],
       .ok (nn_pipeline ("pytorch-onnx-env:" ++ v1) ("onnx2c-env:" ++ v2)
         ("gcc-env:" ++ v3))⟩ := by
  rw [setup, envPhase_ok w sub rg ws h1 h2 h3, dirPhase_ok w hdir]
  simp only [Step.mk_ok_andThen, List.nil_append]
  rw [computePhase_existing w names comp ident hl hm hg hi]
  simp only [Step.mk_ok_andThen]
  rw [rolePhase_exists w sub rg ident.principal_id ds hd hr]
  simp only [Step.mk_ok_andThen]
  rw [environmentsPhase_ok w v1 v2 v3 he1 he2 he3]
  simp only [Step.mk_ok_andThen]
  rw [componentsPhase_ok v1 v2 v3]
  simp

/-- C5: if role-assignment creation raises `ResourceExistsError` the script
catches it, prints the informational message and continues; under either
outcome of that call — success with any returned id, or exactly that error —
the run still registers all three environments and declares the pipeline, so
duplicate role-assignment creation is treated as success. -/
theorem C5_role_exists_downgraded (w : World) (sub rg ws : String) (names : List String)
    (comp : ComputeResource) (ident : ComputeIdentity) (ds : Datastore)
    (v1 v2 v3 : String)
    (h1 : w.env "subscription_id" = some sub)
    (h2 : w.env "resource_group_name" = some rg)
    (h3 : w.env "workspace_name" = some ws)
    (hdir : directories.filter (fun directory => !path_exists w directory) = [])
    (hl : w.computeList = .ok names) (hm : "cpu-cluster" ∈ names)
    (hg : w.computeGet "cpu-cluster" = .ok comp) (hi : comp.identity = some ident)
    (hd : w.datastoreGet "workspaceblobstore" = .ok ds)
    (he1 : w.envRegister "pytorch-onnx-env" = .ok v1)
    (he2 : w.envRegister "onnx2c-env" = .ok v2)
    (he3 : w.envRegister "gcc-env" = .ok v3) :
    (w.roleAssignmentCreate = .error .resourceExistsError →
      "Role assignment already exists. Skipping creation." ∈ (py_main w false).prints ∧
      (py_main w false).events.filter Event.isEnvCreate =
        [.environmentCreateOrUpdate "pytorch-onnx-env" "environments/pytorch",
         .environmentCreateOrUpdate "onnx2c-env" "environments/onnx2c",
         .environmentCreateOrUpdate "gcc-env" "environments/gcc"] ∧
      (py_main w false).result =
        .ok (nn_pipeline ("pytorch-onnx-env:" ++ v1) ("onnx2c-env:" ++ v2)
          ("gcc-env:" ++ v3))) ∧
    (∀ raid, w.roleAssignmentCreate = .ok raid →
      ("Role assignment created: " ++ raid) ∈ (py_main w false).prints ∧
      (py_main w false).events.filter Event.isEnvCreate =
        [.environmentCreateOrUpdate "pytorch-onnx-env" "environments/pytorch",
         .environmentCreateOrUpdate "onnx2c-env" "environments/onnx2c",
         .environmentCreateOrUpdate "gcc-env" "environments/gcc"] ∧
      (py_main w false).result =
        .ok (nn_pipeline ("pytorch-onnx-env:" ++ v1) ("onnx2c-env:" ++ v2)
          ("gcc-env:" ++ v3))) := by
  constructor
  · intro hr
    rw [py_main, setup_full_ree w sub rg ws names comp ident ds v1 v2 v3
      h1 h2 h3 hdir hl hm hg hi hd hr he1 he2 he3]
    simp [Step.andThen, submitPhase_false_eq, Event.isEnvCreate]
  · intro raid hr
    rw [py_main, setup_full_ok w sub rg ws names comp ident ds raid v1 v2 v3
      h1 h2 h3 hdir hl hm hg hi hd hr he1 he2 he3]
    simp [Step.andThen, submitPhase_false_eq, Event.isEnvCreate]

/-- C8: exactly the three environments pytorch-onnx-env, onnx2c-env and
gcc-env are registered, each from its local build context, and every
pipeline step's environment reference is the `name:version` string built
from the version returned by that registration: the training step uses
pytorch-onnx-env, the conversion step uses onnx2c-env, and both the
compile/test step and the minimal-binary step use gcc-env. -/
theorem C8_environments_and_references (w : World) (sub rg ws : String)
    (names : List String) (comp : ComputeResource) (ident : ComputeIdentity)
    (ds : Datastore) (raid v1 v2 v3 : String)
    (h1 : w.env "subscription_id" = some sub)
    (h2 : w.env "resource_group_name" = some rg)
    (h3 : w.env "workspace_name" = some ws)
    (hdir : directories.filter (fun directory => !path_exists w directory) = [])
    (hl : w.computeList = .ok names) (hm : "cpu-cluster" ∈ names)
    (hg : w.computeGet "cpu-cluster" = .ok comp) (hi : comp.identity = some ident)
    (hd : w.datastoreGet "workspaceblobstore" = .ok ds)
    (hr : w.roleAssignmentCreate = .ok raid)
    (he1 : w.envRegister "pytorch-onnx-env" = .ok v1)
    (he2 : w.envRegister "onnx2c-env" = .ok v2)
    (he3 : w.envRegister "gcc-env" = .ok v3) :
    (py_main w false).events.filter Event.isEnvCreate =
      [.environmentCreateOrUpdate "pytorch-onnx-env" "environments/pytorch",
       .environmentCreateOrUpdate "onnx2c-env" "environments/onnx2c",
       .environmentCreateOrUpdate "gcc-env" "environments/gcc"] ∧
    (py_main w false).result =
      .ok (nn_pipeline ("pytorch-onnx-env:" ++ v1) ("onnx2c-env:" ++ v2)
        ("gcc-env:" ++ v3)) ∧
    (nn_pipeline ("pytorch-onnx-env:" ++ v1) ("onnx2c-env:" ++ v2)
        ("gcc-env:" ++ v3)).map
        (fun step => (step.component.name, step.component.environment)) =
      [("pytorch_train", "pytorch-onnx-env:" ++ v1),
       ("onnx2c", "onnx2c-env:" ++ v2),
       ("compile_and_test", "gcc-env:" ++ v3),
       ("build_minimal", "gcc-env:" ++ v3)] := by
  rw [py_main, setup_full_ok w sub rg ws names comp ident ds raid v1 v2 v3
    h1 h2 h3 hdir hl hm hg hi hd hr he1 he2 he3]
  refine ⟨?_, ?_, ?_⟩ <;>
    simp [Step.andThen, submitPhase_false_eq, Event.isEnvCreate, nn_pipeline,
      train_pytorch_model, convert_onnx_to_c, compile_and_test, build_minimal_binary]

/-- C6: the `ResourceExistsError` handler around role-assignment creation is
the only exception handling in the script: an error raised by any other
platform call — compute listing, compute creation, compute lookup, datastore
lookup, role-assignment creation with any other error, environment
registration, or job submission — propagates out of `main` as the run's
outcome, with no retry or recovery. -/
theorem C6_only_role_exists_handled (w : World) (run : Bool) (sub rg ws : String)
    (e : PyError)
    (h1 : w.env "subscription_id" = some sub)
    (h2 : w.env "resource_group_name" = some rg)
    (h3 : w.env "workspace_name" = some ws)
    (hdir : directories.filter (fun directory => !path_exists w directory) = []) :
    (w.computeList = .error e → (py_main w run).result = .error e) ∧
    (∀ names, w.computeList = .ok names → "cpu-cluster" ∉ names →
      w.computeCreate = .error e → (py_main w run).result = .error e) ∧
    (∀ names, w.computeList = .ok names → "cpu-cluster" ∈ names →
      w.computeGet "cpu-cluster" = .error e → (py_main w run).result = .error e) ∧
    (∀ names comp ident, w.computeList = .ok names → "cpu-cluster" ∈ names →
      w.computeGet "cpu-cluster" = .ok comp → comp.identity = some ident →
      w.datastoreGet "workspaceblobstore" = .error e → (py_main w run).result = .error e) ∧
    (∀ names comp ident ds, w.computeList = .ok names → "cpu-cluster" ∈ names →
      w.computeGet "cpu-cluster" = .ok comp → comp.identity = some ident →
      w.datastoreGet "workspaceblobstore" = .ok ds →
      w.roleAssignmentCreate = .error e → e ≠ .resourceExistsError →
      (py_main w run).result = .error e) ∧
    (∀ names comp ident ds raid, w.computeList = .ok names → "cpu-cluster" ∈ names →
      w.computeGet "cpu-cluster" = .ok comp → comp.identity = some ident →
      w.datastoreGet "workspaceblobstore" = .ok ds →
      w.roleAssignmentCreate = .ok raid →
      w.envRegister "pytorch-onnx-env" = .error e →
      (py_main w run).result = .error e) ∧
    (∀ names comp ident ds raid v1 v2 v3, w.computeList = .ok names →
      "cpu-cluster" ∈ names →
      w.computeGet "cpu-cluster" = .ok comp → comp.identity = some ident →
      w.datastoreGet "workspaceblobstore" = .ok ds →
      w.roleAssignmentCreate = .ok raid →
      w.envRegister "pytorch-onnx-env" = .ok v1 →
      w.envRegister "onnx2c-env" = .ok v2 →
      w.envRegister "gcc-env" = .ok v3 →
      w.jobSubmit = .error e → (py_main w true).result = .error e) := by
  refine ⟨fun hl => ?_,
          fun names hl hnm hc => ?_,
          fun names hl hm hge => ?_,
          fun names comp ident hl hm hg hi hde => ?_,
          fun names comp ident ds hl hm hg hi hd hre hne => ?_,
          fun names comp ident ds raid hl hm hg hi hd hr hee => ?_,
          fun names comp ident ds raid v1 v2 v3 hl hm hg hi hd hr he1 he2 he3 hj => ?_⟩
  · rw [py_main, setup, envPhase_ok w sub rg ws h1 h2 h3, dirPhase_ok w hdir]
    simp only [Step.mk_ok_andThen, List.nil_append]
    rw [computePhase_list_err w e hl]
    simp [Step.andThen]
  · rw [py_main, setup, envPhase_ok w sub rg ws h1 h2 h3, dirPhase_ok w hdir]
    simp only [Step.mk_ok_andThen, List.nil_append]
    rw [computePhase_create_err w names e hl hnm hc]
    simp [Step.andThen]
  · rw [py_main, setup, envPhase_ok w sub rg ws h1 h2 h3, dirPhase_ok w hdir]
    simp only [Step.mk_ok_andThen, List.nil_append]
    rw [computePhase_get_err w names e hl hm hge]
    simp [Step.andThen]
  · rw [py_main, setup, envPhase_ok w sub rg ws h1 h2 h3, dirPhase_ok w hdir]
    simp only [Step.mk_ok_andThen, List.nil_append]
    rw [computePhase_existing w names comp ident hl hm hg hi]
    simp only [Step.mk_ok_andThen]
    rw [rolePhase_ds_err w sub rg ident.principal_id e hde]
    simp [Step.andThen]
  · rw [py_main, setup, envPhase_ok w sub rg ws h1 h2 h3, dirPhase_ok w hdir]
    simp only [Step.mk_ok_andThen, List.nil_append]
    rw [computePhase_existing w names comp ident hl hm hg hi]
    simp only [Step.mk_ok_andThen]
    rw [rolePhase_err w sub rg ident.principal_id ds e hd hre hne]
    simp [Step.andThen]
  · rw [py_main, setup, envPhase_ok w sub rg ws h1 h2 h3, dirPhase_ok w hdir]
    simp only [Step.mk_ok_andThen, List.nil_append]
    rw [computePhase_existing w names comp ident hl hm hg hi]
    simp only [Step.mk_ok_andThen]
    rw [rolePhase_ok w sub rg ident.principal_id ds raid hd hr]
    simp only [Step.mk_ok_andThen]
    rw [environmentsPhase_err1 w e hee]
    simp [Step.andThen]
  · rw [py_main, setup_full_ok w sub rg ws names comp ident ds raid v1 v2 v3
      h1 h2 h3 hdir hl hm hg hi hd hr he1 he2 he3]
    simp [Step.andThen, submitPhase, Step.call, Step.print, Step.pure, hj]


/-- Witness for C2 at the concrete world `wMissing`, where all seven
required paths are absent. -/
theorem C2_witness :
    wMissing.env "subscription_id" = some "sub-1" ∧
    wMissing.env "resource_group_name" = some "rg-1" ∧
    wMissing.env "workspace_name" = some "ws-1" ∧
    directories.filter (fun directory => !path_exists wMissing directory) ≠ [] ∧
    py_main wMissing false =
      ⟨[],
       "The following required directories are missing:" ::
         (directories.filter (fun directory => !path_exists wMissing directory)).map
           (fun directory => " - " ++ directory),
       .error (.fileNotFoundError
         "One or more required directories are missing. Please create them and try again.")⟩ :=
  ⟨rfl, rfl, rfl, by decide,
   (C2_missing_directories_abort wMissing false "sub-1" "rg-1" "ws-1" rfl rfl rfl).1
     (by decide)⟩

/-- Witness for C3 at the concrete world `wOK`, whose setup completes. -/
theorem C3_witness :
    (setup wOK).result =
      .ok (nn_pipeline "pytorch-onnx-env:1" "onnx2c-env:1" "gcc-env:1") ∧
    ((py_main wOK false).events = (setup wOK).events ∧
     (py_main wOK false).result =
       .ok (nn_pipeline "pytorch-onnx-env:1" "onnx2c-env:1" "gcc-env:1") ∧
     (py_main wOK false).prints = (setup wOK).prints ++
       ["\nSetup complete! Pipeline is ready to be submitted.",
        "Run the pipeline with the --run flag to execute it."] ∧
     (py_main wOK true).events = (setup wOK).events ++ [Event.jobCreateOrUpdate]) :=
  have h : (setup wOK).result =
      .ok (nn_pipeline "pytorch-onnx-env:1" "onnx2c-env:1" "gcc-env:1") := rfl
  ⟨h, (C3_run_flag_submission wOK).2 _ h⟩

/-- Witness for C4 at the concrete world `wOK`, whose compute list already
contains `cpu-cluster`. -/
theorem C4_witness :
    wOK.env "subscription_id" = some "sub-1" ∧
    wOK.env "resource_group_name" = some "rg-1" ∧
    wOK.env "workspace_name" = some "ws-1" ∧
    directories.filter (fun directory => !path_exists wOK directory) = [] ∧
    wOK.computeList = .ok ["cpu-cluster"] ∧
    ((∃ c, Event.computeCreateOrUpdate c ∈ (py_main wOK false).events) ↔
      "cpu-cluster" ∉ ["cpu-cluster"]) :=
  ⟨rfl, rfl, rfl, by decide, rfl,
   C4_cluster_create_iff_absent wOK false "sub-1" "rg-1" "ws-1" ["cpu-cluster"]
     rfl rfl rfl (by decide) rfl⟩

/-- Witness for C5 at the concrete world `wREE`, where role-assignment
creation raises `ResourceExistsError`. -/
theorem C5_witness :
    wREE.roleAssignmentCreate = .error .resourceExistsError ∧
    ("Role assignment already exists. Skipping creation." ∈ (py_main wREE false).prints ∧
     (py_main wREE false).events.filter Event.isEnvCreate =
       [.environmentCreateOrUpdate "pytorch-onnx-env" "environments/pytorch",
        .environmentCreateOrUpdate "onnx2c-env" "environments/onnx2c",
        .environmentCreateOrUpdate "gcc-env" "environments/gcc"] ∧
     (py_main wREE false).result =
       .ok (nn_pipeline ("pytorch-onnx-env:" ++ "1") ("onnx2c-env:" ++ "1")
         ("gcc-env:" ++ "1"))) :=
  ⟨rfl,
   (C5_role_exists_downgraded wREE "sub-1" "rg-1" "ws-1" ["cpu-cluster"]
     ⟨"cpu-cluster", some ⟨"principal-1"⟩⟩ ⟨"principal-1"⟩ ⟨"storacct"⟩ "1" "1" "1"
     rfl rfl rfl (by decide) rfl (by decide) rfl rfl rfl rfl rfl rfl).1 rfl⟩

/-- Witness for C6 at the concrete world `wCLErr`, where the compute
listing fails with an error the script does not handle. -/
theorem C6_witness :
    wCLErr.env "subscription_id" = some "sub-1" ∧
    directories.filter (fun directory => !path_exists wCLErr directory) = [] ∧
    wCLErr.computeList = .error (.otherError "AuthenticationError") ∧
    (py_main wCLErr false).result = .error (.otherError "AuthenticationError") :=
  ⟨rfl, by decide, rfl,
   (C6_only_role_exists_handled wCLErr false "sub-1" "rg-1" "ws-1"
     (.otherError "AuthenticationError") rfl rfl rfl (by decide)).1 rfl⟩

/-- Witness for C7 at the concrete world `wNoEnv`, where no environment
variable is set. -/
theorem C7_witness :
    wNoEnv.env "subscription_id" = none ∧
    py_main wNoEnv false = ⟨[], [], .error (.keyError "subscription_id")⟩ :=
  ⟨rfl, (C7_env_vars_required wNoEnv false).1 rfl⟩

/-- Witness for C8 at the concrete world `wOK`, where every registration
returns version 1. -/
theorem C8_witness :
    wOK.envRegister "pytorch-onnx-env" = .ok "1" ∧
    ((py_main wOK false).events.filter Event.isEnvCreate =
      [.environmentCreateOrUpdate "pytorch-onnx-env" "environments/pytorch",
       .environmentCreateOrUpdate "onnx2c-env" "environments/onnx2c",
       .environmentCreateOrUpdate "gcc-env" "environments/gcc"] ∧
     (py_main wOK false).result =
       .ok (nn_pipeline ("pytorch-onnx-env:" ++ "1") ("onnx2c-env:" ++ "1")
         ("gcc-env:" ++ "1")) ∧
     (nn_pipeline ("pytorch-onnx-env:" ++ "1") ("onnx2c-env:" ++ "1")
         ("gcc-env:" ++ "1")).map
         (fun step => (step.component.name, step.component.environment)) =
       [("pytorch_train", "pytorch-onnx-env:" ++ "1"),
        ("onnx2c", "onnx2c-env:" ++ "1"),
        ("compile_and_test", "gcc-env:" ++ "1"),
        ("build_minimal", "gcc-env:" ++ "1")]) :=
  ⟨rfl,
   C8_environments_and_references wOK "sub-1" "rg-1" "ws-1" ["cpu-cluster"]
     ⟨"cpu-cluster", some ⟨"principal-1"⟩⟩ ⟨"principal-1"⟩ ⟨"storacct"⟩ "ra-1" "1" "1" "1"
     rfl rfl rfl (by decide) rfl (by decide) rfl rfl rfl rfl rfl rfl rfl⟩

/-- Witness for C9 at the concrete world `wNoId`, where the existing
cluster has no managed identity. -/
theorem C9_witness :
    wNoId.computeGet "cpu-cluster" = .ok ⟨"cpu-cluster", none⟩ ∧
    py_main wNoId false =
      ⟨[.computeList, .computeGet "cpu-cluster"],
       ["All required directories are present.", "Creating compute cluster...",
        "Compute cluster already exists."],
       .error (.attributeError "NoneType object has no attribute principal_id")⟩ :=
  ⟨rfl,
   C9_identity_deref_unguarded wNoId false "sub-1" "rg-1" "ws-1" ["cpu-cluster"]
     ⟨"cpu-cluster", none⟩ rfl rfl rfl (by decide) rfl (by decide) rfl rfl⟩

/-- Witness for C10 at the concrete world `wFiles`, where each required
path exists as a regular file rather than a directory. -/
theorem C10_witness :
    (directories.all fun d => (wFiles.fs d).isSome) = true ∧
    (directories.filter (fun directory => !path_exists wFiles directory) = [] ∧
     (py_main wFiles false).events.head? = some .computeList ∧
     "All required directories are present." ∈ (py_main wFiles false).prints) :=
  ⟨by decide,
   C10_exists_not_isdir wFiles false "sub-1" "rg-1" "ws-1" rfl rfl rfl (by decide)⟩
